import Mathlib

/-!
# Verification of the deep-research-py question-generation pipeline

Shallow embedding of the Question-Generation & Context-Enrichment Pipeline of
`deep_research_py` (files `translate.py`, `search_engine.py`, `feedback.py`,
`app.py`).  External effects (the OpenAI chat client, the search provider
SDKs, `json.loads`) are modelled by passing their outcomes as explicit
arguments; a Python run that raises is an `Except.error` value, so the
statements "never raises" / "propagates the exception" are about the
`Except` layer of the embedding.
-/

/-- A JSON value, as produced by `json.loads` on a provider response body. -/
inductive Json where
  | null : Json
  | bool (b : Bool) : Json
  | num (n : Int) : Json
  | str (s : String) : Json
  | arr (elems : List Json) : Json
  | obj (fields : List (String × Json)) : Json
deriving Repr

/-- The Python exceptions the embedded code can raise or observe.  A
`json.JSONDecodeError` is modelled separately (a failed decode is a `none`
parse outcome, see `ChatMessage.decoded`), because the source catches it with
a dedicated `except json.JSONDecodeError` clause while every other exception
here is only ever caught by a bare `except Exception`. -/
inductive PyExc where
  /-- Any transport/provider/SDK exception escaping a client call. -/
  | providerError (msg : String) : PyExc
  /-- `IndexError`, e.g. `response.choices[0]` on an empty list. -/
  | indexError : PyExc
  /-- `AttributeError`, e.g. `.get` called on a non-dict object. -/
  | attributeError : PyExc
deriving Repr, DecidableEq

/-- Python `str()` rendering of a JSON value, used where an f-string
interpolates a value obtained from a parsed response.  It is exact on
strings — the only case produced by a well-formed provider response; the
remaining cases follow Python conventions where they are cheap and are
placeholders otherwise (no claim depends on them). -/
def Json.pyStr : Json → String
  | .null => "None"
  | .bool true => "True"
  | .bool false => "False"
  | .num n => toString n
  | .str s => s
  | .arr _ => "<list>"
  | .obj _ => "<dict>"

/-- One chat-completion message as the pipeline observes it: the raw text
content together with the outcome of `json.loads` on it (`none` models a
`json.JSONDecodeError`). -/
structure ChatMessage where
  content : String
  decoded : Option Json

/-- One element of `response.choices`. -/
structure Choice where
  message : ChatMessage

/-- A chat-completion response object. -/
structure ChatResponse where
  choices : List Choice

/-! ## Language Normalizer (`translate.py`) -/

/-- `any(u'一' <= char <= u'鿿' for char in query)`
(`translate.py` line 21). -/
def containsCJK (query : String) : Bool :=
  query.any (fun c => decide (0x4e00 ≤ c.toNat ∧ c.toNat ≤ 0x9fff))

/-- `translate_to_english` (`translate.py`).  `call` is the outcome of the
one OpenAI chat call the function can make.  Returns the Python value the
function returns (a `Json`, since `result.get("translation", query)` is an
arbitrary parsed value) together with how many model calls were issued.
The whole body sits in a `try ... except Exception` that returns `query`,
so the embedding is total: the function never raises. -/
def translate_to_english (call : Except PyExc ChatResponse) (query : String) :
    Json × Nat :=
  if !containsCJK query then
    -- no Chinese characters: return the input unchanged, no model call
    (Json.str query, 0)
  else
    match call with
    | .error _ => (Json.str query, 1)       -- outer except Exception: return query
    | .ok resp =>
      match resp.choices with
      | [] => (Json.str query, 1)           -- IndexError, caught by outer except
      | c :: _ =>
        match c.message.decoded with
        | none => (Json.str query, 1)       -- JSONDecodeError: translated_text = query
        | some (Json.obj fields) =>
            ((fields.lookup "translation").getD (Json.str query), 1)
        | some _ => (Json.str query, 1)     -- .get on non-dict: AttributeError, outer except

/-! ## Search Gateway (`search_engine.py`) -/

/-- A normalized search hit `{title, url, markdown}`. -/
structure SearchHit where
  title : String
  url : String
  markdown : String
deriving Repr, DecidableEq

/-- The dict a gateway `search` returns: `data` is always present;
`answer := none` models the `"answer"` key being absent. -/
structure SearchResponse where
  data : List SearchHit
  answer : Option String
deriving Repr, DecidableEq

/-- The keyword arguments `Tavily.search` hands to
`self.client.search(...)` (`search_engine.py` lines 94-102). -/
structure TavilyRequest where
  query : String
  search_depth : String
  topic : String
  days : Nat
  max_results : Nat
  include_answer : Bool
  include_raw_content : Bool
deriving Repr, DecidableEq

/-- One element of the provider response's `"results"` list; `none` models
an absent key (each field is read with `item.get(key, "")`). -/
structure TavilyItem where
  title : Option String
  url : Option String
  published_date : Option String
  content : Option String

/-- The Tavily provider's response dict; `results`/`answer` are `none` when
the key is absent (read with `response.get("results", [])` and
`response.get("answer", "")`). -/
structure TavilyResponse where
  results : Option (List TavilyItem)
  answer : Option String

/-- The request `Tavily.search` builds for the provider call. -/
def Tavily.mkRequest (query : String) (limit : Nat) : TavilyRequest :=
  { query := query
    search_depth := "advanced"
    topic := "general"
    days := 5
    max_results := limit
    include_answer := true
    include_raw_content := true }

/-- `Tavily.search` (`search_engine.py` lines 85-118).  `provider` is the
Tavily SDK: the outcome of `self.client.search(...)` on a given request.
The `timeout` parameter exists in the source signature and is unused there
too. -/
def Tavily.search (provider : TavilyRequest → Except PyExc TavilyResponse)
    (query : String) (timeout : Nat) (limit : Nat) : SearchResponse :=
  match provider (Tavily.mkRequest query limit) with
  | .error _ => { data := [], answer := none }   -- except Exception: {"data": []}
  | .ok resp =>
    let results := resp.results.getD []
    match results with
    | [] => { data := [], answer := none }       -- falsy results: {"data": []}
    | _ :: _ =>
      { data := results.map (fun item =>
          { title := item.title.getD ""
            url := item.url.getD ""
            markdown := (item.published_date.getD "") ++ "\n" ++ (item.content.getD "") })
        answer := some (resp.answer.getD "") }

/-- The arguments `Firecrawl.search` hands to `self.app.search(...)`
(`search_engine.py` lines 38-41): only the query — neither `timeout` nor
`limit` is forwarded. -/
structure FirecrawlRequest where
  query : String
deriving Repr, DecidableEq

/-- One element of a list-shaped Firecrawl response: either already a dict
(appended as-is) or an SDK object read with `getattr(_, _, "")` fallbacks
(an absent attribute and an empty one are both `""`, which is also how the
source treats them via `or`). -/
inductive FirecrawlItem where
  | dictItem (hit : SearchHit) : FirecrawlItem
  | objItem (url markdown content title metaTitle : String) : FirecrawlItem

/-- The shapes of `self.app.search(...)` responses the source
distinguishes with `isinstance` tests.  In `dictResp`, `data := none`
models the `"data"` key being absent and `hasSuccess` models
`"success" in response`. -/
inductive FirecrawlResponse where
  | dictResp (data : Option (List SearchHit)) (hasSuccess : Bool)
      (answer : Option String) : FirecrawlResponse
  | listResp (items : List FirecrawlItem) : FirecrawlResponse
  | otherResp : FirecrawlResponse

/-- The per-item normalization of the list branch
(`search_engine.py` lines 52-67). -/
def firecrawlFormatItem : FirecrawlItem → SearchHit
  | .dictItem hit => hit
  | .objItem url markdown content title metaTitle =>
    { url := url
      markdown := if markdown = "" then content else markdown
      title := if title = "" then metaTitle else title }

/-- `Firecrawl.search` (`search_engine.py` lines 31-78).  `provider` is the
Firecrawl SDK call `self.app.search(query=query)`; note the request carries
only the query, so `timeout` and `limit` never reach the provider (and are
not applied locally either). -/
def Firecrawl.search (provider : FirecrawlRequest → Except PyExc FirecrawlResponse)
    (query : String) (timeout : Nat) (limit : Nat) : SearchResponse :=
  match provider { query := query } with
  | .error _ => { data := [], answer := none }   -- except Exception: {"data": []}
  | .ok resp =>
    match resp with
    | .dictResp (some data) _ answer =>
        -- "data" in response: return response (the whole dict, answer key included)
        { data := data, answer := answer }
    | .dictResp none true _ =>
        -- "success" in response: {"data": response.get("data", [])} with "data" absent
        { data := [], answer := none }
    | .dictResp none false _ =>
        -- unexpected dict shape: logged, {"data": []}
        { data := [], answer := none }
    | .listResp items =>
        { data := items.map firecrawlFormatItem, answer := none }
    | .otherResp =>
        -- unexpected response format: logged, {"data": []}
        { data := [], answer := none }

/-! ## Question Generator (`feedback.py`) -/

/-- Modelled from the spec: `trim_prompt` is imported from `ai.providers`,
which is not among the provided sources.  The spec requires a deterministic
per-hit truncation that never exceeds the budget and preserves a usable
prefix; we model it as taking the first `maxLen` characters. -/
def trim_prompt (s : String) (maxLen : Nat) : String :=
  String.mk (s.data.take maxLen)

/-- The list comprehension of `feedback.py` lines 27-31:
`[trim_prompt(item.get("markdown", ""), 15_000) for item in search_result["data"] if item.get("markdown")]`.
The guard keeps exactly the hits whose markdown is truthy (non-empty). -/
def contextContents (sr : SearchResponse) : List String :=
  (sr.data.filter (fun item => !(item.markdown = ""))).map
    (fun item => trim_prompt item.markdown 15000)

/-- The context blob of `feedback.py` lines 33-35: fixed introduction, each
truncated content wrapped in `<content>` delimiters, then the raw answer
(`search_result.get("answer", "")`). -/
def buildContext (sr : SearchResponse) : String :=
  "\n\nHere is some background information about the topic:\n" ++
    String.join ((contextContents sr).map
      (fun content => "<content>\n" ++ content ++ "\n</content>")) ++
    (sr.answer.getD "")

/-- An apostrophe, kept out of string literals. -/
def apostrophe : String := String.singleton (Char.ofNat 39)

/-- The user-message content of the final model call
(`feedback.py` lines 45-48), as a function of the (possibly translated)
query and the context blob. -/
def userMessageText (query context : String) : String :=
  "Given this research topic: " ++ query ++ context ++
    ", generate 3-5 follow-up questions to better understand the user" ++
    apostrophe ++ "s research needs. Return the response as a JSON object with a " ++
    apostrophe ++ "questions" ++ apostrophe ++ " array field."

/-- The external collaborators one `generate_feedback` invocation can reach:
the outcome of the translation model call (used at most once), the Tavily
SDK (`generate_feedback` hard-codes `SearchEngineType.TAVILY`), and the
outcome of the final question-generation model call. -/
structure FeedbackWorld where
  translateCall : Except PyExc ChatResponse
  tavilyProvider : TavilyRequest → Except PyExc TavilyResponse
  generatorCall : Except PyExc ChatResponse

/-- Observable record of one `generate_feedback` run: how many model calls
the translation step issued, how many search-provider calls were made, how
many final model calls were made, the user-message content sent to the
final call (`none` if never reached), and the raw response text printed on
a JSON decode failure (`none` if none was). -/
structure Trace where
  translateCalls : Nat
  searchCalls : Nat
  generatorCalls : Nat
  userMessage : Option String
  loggedRaw : Option String
deriving Repr, DecidableEq

/-- `generate_feedback` (`feedback.py`).  Returns the Python result — the
parsed `questions` value, a `Json` since `result.get("questions", [])` is
an arbitrary parsed value — or the exception the run raises, together with
the `Trace`.  Only a `json.JSONDecodeError` of the final response body is
caught (lines 56-63); every other failure of the final call escapes. -/
def generate_feedback (w : FeedbackWorld) (query : String)
    (use_search_enhancement : Bool) : Except PyExc Json × Trace :=
  let st :=
    if use_search_enhancement then
      -- query = await translate_to_english(query)
      let tr := translate_to_english w.translateCall query
      let query2 := tr.1.pyStr
      -- search_result = await search_engine.search(query, limit=5)
      let sr := Tavily.search w.tavilyProvider query2 15000 5
      (query2, buildContext sr, tr.2, 1)
    else
      (query, "", 0, 0)
  let userMsg := userMessageText st.1 st.2.1
  match w.generatorCall with
  | .error e =>
      -- the create(...) call raises: nothing catches it here
      (.error e, ⟨st.2.2.1, st.2.2.2, 1, some userMsg, none⟩)
  | .ok resp =>
    let baseTrace : Trace := ⟨st.2.2.1, st.2.2.2, 1, some userMsg, none⟩
    match resp.choices with
    | [] =>
        -- response.choices[0] raises IndexError; the except clause only
        -- catches json.JSONDecodeError, so it propagates
        (.error .indexError, baseTrace)
    | c :: _ =>
      match c.message.decoded with
      | none =>
          -- json.JSONDecodeError: print both messages, return []
          (.ok (Json.arr []), { baseTrace with loggedRaw := some c.message.content })
      | some (Json.obj fields) =>
          -- return result.get("questions", [])
          (.ok ((fields.lookup "questions").getD (Json.arr [])), baseTrace)
      | some _ =>
          -- result.get on a non-dict raises AttributeError, not caught
          (.error .attributeError, baseTrace)

/-! ## Session state (`app.py`) -/

/-- `ResearchSession` (`app.py` lines 8-30): the fields `get_combined_query`
reads. -/
structure ResearchSession where
  query : String
  questions : List String
  answers : List String

/-- `get_combined_query` (`app.py` lines 27-30): `zip` the stored questions
and answers, join the `Q:`/`A:` blocks with newlines, prepend the fixed
framing. -/
def ResearchSession.get_combined_query (s : ResearchSession) : String :=
  let qa_text := String.intercalate "\n"
    ((s.questions.zip s.answers).map (fun p => "Q: " ++ p.1 ++ "\nA: " ++ p.2))
  "Initial Query: " ++ s.query ++ "\nFollow-up Questions and Answers:\n" ++ qa_text

/-- The answer filtering of `on_start_research_async` (`app.py` line 95):
`[a for a in answers if a and a.strip() != ""]`. -/
def validAnswers (answers : List String) : List String :=
  answers.filter (fun a => !(a = "") && !(a.trim = ""))

/-! ## Claims about the Language Normalizer -/

/-- C4: for every input containing zero characters in the CJK Unified
Ideographs range U+4E00-U+9FFF, `translate_to_english` returns the
identical string and issues zero model-client calls, whatever the model
client would have answered. -/
theorem C4_detection_purity (call : Except PyExc ChatResponse) (query : String)
    (h : ∀ c ∈ query.data, c.toNat < 0x4e00 ∨ 0x9fff < c.toNat) :
    translate_to_english call query = (Json.str query, 0) := by
  have hc : containsCJK query = false := by
    unfold containsCJK
    rw [String.any_eq]
    simp only [List.any_eq_false, decide_eq_true_eq, not_and, not_le]
    intro c hcmem
    have := h c hcmem
    omega
  unfold translate_to_english
  rw [hc]
  rfl

/-- Witness for C4 at the concrete CJK-free input `"hello"`. -/
theorem C4_detection_purity_witness :
    (∀ c ∈ "hello".data, c.toNat < 0x4e00 ∨ 0x9fff < c.toNat) ∧
      translate_to_english (Except.error (PyExc.providerError "net down")) "hello" =
        (Json.str "hello", 0) :=
  ⟨by decide,
   C4_detection_purity (Except.error (PyExc.providerError "net down")) "hello" (by decide)⟩

/-- C3: if the model call inside `translate_to_english` raises, or its
response body is unparsable JSON, or the parsed JSON object lacks the
`translation` field, then the original input string comes back unchanged —
and nothing is raised, the embedding being a total function into plain
values. -/
theorem C3_translation_fallback (call : Except PyExc ChatResponse) (query : String)
    (h : (∃ e, call = Except.error e) ∨
      (∃ resp c rest, call = Except.ok resp ∧ resp.choices = c :: rest ∧
        (c.message.decoded = none ∨
          ∃ fields, c.message.decoded = some (Json.obj fields) ∧
            fields.lookup "translation" = none))) :
    (translate_to_english call query).1 = Json.str query := by
  by_cases hc : containsCJK query
  · rcases h with ⟨e, rfl⟩ | ⟨resp, c, rest, rfl, hch, hdec⟩
    · simp [translate_to_english, hc]
    · rcases hdec with hdec | ⟨fields, hdec, hlook⟩
      · simp [translate_to_english, hc, hch, hdec]
      · simp [translate_to_english, hc, hch, hdec, hlook]
  · simp [translate_to_english, hc]

/-- Witness for C3: the client raises on a Chinese query; the input comes
back verbatim. -/
theorem C3_translation_fallback_witness :
    (translate_to_english (Except.error (PyExc.providerError "timeout")) "量子计算").1 =
      Json.str "量子计算" :=
  C3_translation_fallback (Except.error (PyExc.providerError "timeout")) "量子计算"
    (Or.inl ⟨PyExc.providerError "timeout", rfl⟩)

/-! ## Claims about the Search Gateway -/

/-- C2: for both backend variants, whenever the underlying provider call
throws, `search` returns the dict whose `data` is `[]` and which has no
`answer` key — it does not raise. -/
theorem C2_gateway_exception_normalization :
    (∀ (provider : FirecrawlRequest → Except PyExc FirecrawlResponse)
        (query : String) (timeout limit : Nat) (e : PyExc),
        provider { query := query } = Except.error e →
        Firecrawl.search provider query timeout limit = { data := [], answer := none }) ∧
    (∀ (provider : TavilyRequest → Except PyExc TavilyResponse)
        (query : String) (timeout limit : Nat) (e : PyExc),
        provider (Tavily.mkRequest query limit) = Except.error e →
        Tavily.search provider query timeout limit = { data := [], answer := none }) := by
  constructor
  · intro provider query timeout limit e h
    unfold Firecrawl.search
    rw [h]
  · intro provider query timeout limit e h
    unfold Tavily.search
    rw [h]

/-- Witness for C2: a provider that always throws, for each backend. -/
theorem C2_gateway_exception_normalization_witness :
    Firecrawl.search (fun _ => Except.error (PyExc.providerError "net")) "q" 15000 5 =
        { data := [], answer := none } ∧
      Tavily.search (fun _ => Except.error (PyExc.providerError "net")) "q" 15000 5 =
        { data := [], answer := none } :=
  ⟨C2_gateway_exception_normalization.1 _ "q" 15000 5 (PyExc.providerError "net") rfl,
   C2_gateway_exception_normalization.2 _ "q" 15000 5 (PyExc.providerError "net") rfl⟩

/-- A Firecrawl SDK stand-in that returns three hits whatever the request
says. -/
def firecrawlThreeHits : FirecrawlRequest → Except PyExc FirecrawlResponse :=
  fun _ => Except.ok (FirecrawlResponse.dictResp
    (some [⟨"t1", "u1", "m1"⟩, ⟨"t2", "u2", "m2"⟩, ⟨"t3", "u3", "m3"⟩]) false none)

/-- C5 counterexample: with the Firecrawl backend, `limit = 1` is neither
forwarded to the provider nor applied as a local truncation — all three
provider hits come back, and the result is identical under limits 1 and
100. -/
theorem C5_counterexample :
    (Firecrawl.search firecrawlThreeHits "q" 15000 1).data.length = 3 ∧
    Firecrawl.search firecrawlThreeHits "q" 15000 1 =
      Firecrawl.search firecrawlThreeHits "q" 15000 100 :=
  ⟨rfl, rfl⟩

/-- C5 amended: the Tavily backend forwards `limit` to the provider as the
request field `max_results` — its result depends on the provider only
through requests carrying that bound — while the Firecrawl backend ignores
`limit` entirely (the provider call carries only the query, and no local
truncation is applied). -/
theorem C5_amended_limit_passthrough :
    (∀ (query : String) (limit : Nat),
        (Tavily.mkRequest query limit).max_results = limit) ∧
    (∀ (f g : TavilyRequest → Except PyExc TavilyResponse)
        (query : String) (timeout limit : Nat),
        (∀ r, r.max_results = limit → f r = g r) →
        Tavily.search f query timeout limit = Tavily.search g query timeout limit) ∧
    (∀ (provider : FirecrawlRequest → Except PyExc FirecrawlResponse)
        (query : String) (timeout l1 l2 : Nat),
        Firecrawl.search provider query timeout l1 =
          Firecrawl.search provider query timeout l2) := by
  refine ⟨fun query limit => rfl, ?_, fun provider query timeout l1 l2 => rfl⟩
  intro f g query timeout limit h
  unfold Tavily.search
  rw [h (Tavily.mkRequest query limit) rfl]

/-- Witness for C5 amended: two Tavily providers agreeing on requests with
`max_results = 2` yield the same search result at limit 2, and a Firecrawl
search is unchanged between limits 1 and 7. -/
theorem C5_amended_limit_passthrough_witness :
    (Tavily.mkRequest "q" 2).max_results = 2 ∧
    Tavily.search (fun _ => Except.error (PyExc.providerError "boom")) "q" 15000 2 =
      Tavily.search (fun r => if r.max_results = 2
          then Except.error (PyExc.providerError "boom")
          else Except.ok ⟨some [], none⟩) "q" 15000 2 ∧
    Firecrawl.search firecrawlThreeHits "q" 15000 1 =
      Firecrawl.search firecrawlThreeHits "q" 15000 7 :=
  ⟨C5_amended_limit_passthrough.1 "q" 2,
   C5_amended_limit_passthrough.2.1 _ _ "q" 15000 2 (fun r hr => by simp [hr]),
   C5_amended_limit_passthrough.2.2 firecrawlThreeHits "q" 15000 1 7⟩

/-! ## Claims about the session boundary (`app.py`) -/

/-- C7: the combined query matches the documented framing exactly, both on
the concrete `"Topic"`/`["Q1","Q2"]`/`["A1","A2"]` instance and in
general. -/
theorem C7_combined_query_framing :
    (ResearchSession.get_combined_query ⟨"Topic", ["Q1", "Q2"], ["A1", "A2"]⟩ =
      "Initial Query: Topic\nFollow-up Questions and Answers:\nQ: Q1\nA: A1\nQ: Q2\nA: A2") ∧
    ∀ (q : String) (qs answers : List String),
      ResearchSession.get_combined_query ⟨q, qs, answers⟩ =
        "Initial Query: " ++ q ++ "\nFollow-up Questions and Answers:\n" ++
          String.intercalate "\n"
            ((qs.zip answers).map (fun p => "Q: " ++ p.1 ++ "\nA: " ++ p.2)) :=
  ⟨by decide, fun q qs answers => rfl⟩

/-- `zip` only consumes the first `length bs` elements of the left list. -/
theorem zip_eq_take_zip {α β : Type} (xs : List α) (bs : List β) :
    xs.zip bs = (xs.take bs.length).zip bs := by
  induction xs generalizing bs with
  | nil => simp
  | cons x xs ih =>
    cases bs with
    | nil => simp
    | cons b bs => simp [ih]

/-- C10: `get_combined_query` pairs the stored questions and answers
strictly positionally, the pairing stops at the shorter list, and — when
fewer answers than questions are stored — the trailing questions are
silently dropped from the combined query, with no error. -/
theorem C10_positional_pairing_truncates :
    ∀ (q : String) (qs answers : List String),
      ((qs.zip answers).length = min qs.length answers.length) ∧
      (∀ (i : Nat) (h : i < (qs.zip answers).length)
          (hq : i < qs.length) (ha : i < answers.length),
        (qs.zip answers).get ⟨i, h⟩ = (qs.get ⟨i, hq⟩, answers.get ⟨i, ha⟩)) ∧
      (answers.length ≤ qs.length →
        ResearchSession.get_combined_query ⟨q, qs, answers⟩ =
          ResearchSession.get_combined_query ⟨q, qs.take answers.length, answers⟩) := by
  intro q qs answers
  refine ⟨List.length_zip .., ?_, ?_⟩
  · intro i h hq ha
    simp [List.get_eq_getElem, List.getElem_zip]
  · intro hle
    unfold ResearchSession.get_combined_query
    rw [← zip_eq_take_zip]

/-- Witness for C10 with three questions and one stored answer: the pair
list has length 1, pairs positionally, and questions 2 and 3 vanish from
the combined query. -/
theorem C10_positional_pairing_truncates_witness :
    ((["Q1", "Q2", "Q3"].zip ["A1"]).length = min 3 1) ∧
    ((["Q1", "Q2", "Q3"].zip ["A1"]).get ⟨0, by decide⟩ = ("Q1", "A1")) ∧
    ResearchSession.get_combined_query ⟨"T", ["Q1", "Q2", "Q3"], ["A1"]⟩ =
      "Initial Query: T\nFollow-up Questions and Answers:\nQ: Q1\nA: A1" := by
  obtain ⟨h1, h2, h3⟩ := C10_positional_pairing_truncates "T" ["Q1", "Q2", "Q3"] ["A1"]
  exact ⟨h1, h2 0 (by decide) (by decide) (by decide),
    (h3 (by decide)).trans (by decide)⟩

/-! ## Claims about the Question Generator -/

/-- C8: every hit whose markdown exceeds the 15000-unit budget contributes
its truncation — at most 15000 long and never the full original text — to
the built context contents, and the budget is a hard per-hit ceiling:
every element of the contents list respects it individually. -/
theorem C8_per_hit_truncation_bound (sr : SearchResponse) (hit : SearchHit)
    (hmem : hit ∈ sr.data) (hlong : 15000 < hit.markdown.length) :
    trim_prompt hit.markdown 15000 ∈ contextContents sr ∧
    (trim_prompt hit.markdown 15000).length ≤ 15000 ∧
    trim_prompt hit.markdown 15000 ≠ hit.markdown ∧
    ∀ content ∈ contextContents sr, content.length ≤ 15000 := by
  have hlen : ∀ s : String, (trim_prompt s 15000).length = min 15000 s.length := by
    intro s
    show (s.data.take 15000).length = _
    exact List.length_take ..
  have hne : hit.markdown ≠ "" := by
    intro hcontra
    rw [hcontra] at hlong
    exact absurd hlong (by decide)
  refine ⟨?_, ?_, ?_, ?_⟩
  · exact List.mem_map_of_mem _ (List.mem_filter.mpr ⟨hmem, by simp [hne]⟩)
  · rw [hlen]
    omega
  · intro hcontra
    have hcl := congrArg String.length hcontra
    rw [hlen] at hcl
    omega
  · intro content hcmem
    rcases List.mem_map.mp hcmem with ⟨h2, hh2, rfl⟩
    rw [hlen]
    omega

/-- Witness for C8: a single hit of 15001 characters; its 15000-character
truncation, and nothing longer, reaches the context. -/
theorem C8_per_hit_truncation_bound_witness :
    (let big : SearchHit := ⟨"t", "u", String.mk (List.replicate 15001 'x')⟩
     big ∈ [big] ∧ 15000 < big.markdown.length ∧
     (trim_prompt big.markdown 15000 ∈ contextContents ⟨[big], none⟩ ∧
      (trim_prompt big.markdown 15000).length ≤ 15000 ∧
      trim_prompt big.markdown 15000 ≠ big.markdown ∧
      ∀ content ∈ contextContents ⟨[big], none⟩, content.length ≤ 15000)) := by
  have hlong : 15000 <
      (String.mk (List.replicate 15001 'x') : String).length := by
    have h15 : (String.mk (List.replicate 15001 'x') : String).length = 15001 := by
      show (List.replicate 15001 'x').length = 15001
      exact List.length_replicate ..
    omega
  exact ⟨List.mem_singleton.mpr rfl, hlong,
    C8_per_hit_truncation_bound ⟨[⟨"t", "u", String.mk (List.replicate 15001 'x')⟩], none⟩
      ⟨"t", "u", String.mk (List.replicate 15001 'x')⟩
      (List.mem_singleton.mpr rfl) hlong⟩

/-- C9: with search enhancement off, `generate_feedback` makes no
translation model call and no search call, exactly one generator call
whose user message embeds the raw query with an empty context, and returns
the `questions` array parsed from the structured response. -/
theorem C9_enhancement_off (w : FeedbackWorld) (query : String)
    (resp : ChatResponse) (c : Choice) (rest : List Choice)
    (fields : List (String × Json)) (qs : List Json)
    (hcall : w.generatorCall = Except.ok resp)
    (hch : resp.choices = c :: rest)
    (hdec : c.message.decoded = some (Json.obj fields))
    (hq : fields.lookup "questions" = some (Json.arr qs)) :
    generate_feedback w query false =
      (Except.ok (Json.arr qs), ⟨0, 0, 1, some (userMessageText query ""), none⟩) := by
  simp [generate_feedback, hcall, hch, hdec, hq]

/-- Witness for C9: the mocked response
`{"questions": ["Q1?", "Q2?", "Q3?"]}` yields exactly those questions with
zero translation and search calls. -/
theorem C9_enhancement_off_witness :
    generate_feedback
      ⟨Except.error (PyExc.providerError "unused"),
       fun _ => Except.error (PyExc.providerError "unused"),
       Except.ok ⟨[⟨⟨"resp body", some (Json.obj [("questions",
         Json.arr [Json.str "Q1?", Json.str "Q2?", Json.str "Q3?"])])⟩⟩]⟩⟩
      "What is quantum computing?" false =
      (Except.ok (Json.arr [Json.str "Q1?", Json.str "Q2?", Json.str "Q3?"]),
        ⟨0, 0, 1, some (userMessageText "What is quantum computing?" ""), none⟩) :=
  C9_enhancement_off _ "What is quantum computing?" _ _ _ _ _ rfl rfl rfl rfl

/-- C6 counterexample: the final response body `"[]"` is valid JSON yet
lacks a `questions` field, and `generate_feedback` raises
`AttributeError` (`result.get` on a parsed non-dict) instead of returning
the empty list. -/
theorem C6_counterexample :
    (generate_feedback
      ⟨Except.error (PyExc.providerError "unused"),
       fun _ => Except.error (PyExc.providerError "unused"),
       Except.ok ⟨[⟨⟨"[]", some (Json.arr [])⟩⟩]⟩⟩
      "topic" false).1 = Except.error PyExc.attributeError := rfl

/-- C6 amended: a final response body that is not valid JSON makes
`generate_feedback` return the empty list and log the raw text, without
raising; and a body that is a valid JSON object without a `questions`
field likewise yields the empty list (a valid non-object body instead
raises `AttributeError`, see the counterexample). -/
theorem C6_amended_parse_failure_degrades :
    (∀ (w : FeedbackWorld) (query : String) (enh : Bool)
        (resp : ChatResponse) (c : Choice) (rest : List Choice),
        w.generatorCall = Except.ok resp → resp.choices = c :: rest →
        c.message.decoded = none →
        (generate_feedback w query enh).1 = Except.ok (Json.arr []) ∧
        (generate_feedback w query enh).2.loggedRaw = some c.message.content) ∧
    (∀ (w : FeedbackWorld) (query : String) (enh : Bool)
        (resp : ChatResponse) (c : Choice) (rest : List Choice)
        (fields : List (String × Json)),
        w.generatorCall = Except.ok resp → resp.choices = c :: rest →
        c.message.decoded = some (Json.obj fields) →
        fields.lookup "questions" = none →
        (generate_feedback w query enh).1 = Except.ok (Json.arr [])) := by
  constructor
  · intro w query enh resp c rest hcall hch hdec
    constructor <;> simp [generate_feedback, hcall, hch, hdec]
  · intro w query enh resp c rest fields hcall hch hdec hlook
    simp [generate_feedback, hcall, hch, hdec, hlook]

/-- Witness for C6 amended: a non-JSON body degrades to `[]` and is
logged; an object body without `questions` degrades to `[]`. -/
theorem C6_amended_parse_failure_degrades_witness :
    ((generate_feedback
        ⟨Except.error (PyExc.providerError "u"),
         fun _ => Except.error (PyExc.providerError "u"),
         Except.ok ⟨[⟨⟨"not json at all", none⟩⟩]⟩⟩ "t" false).1 =
          Except.ok (Json.arr []) ∧
      (generate_feedback
        ⟨Except.error (PyExc.providerError "u"),
         fun _ => Except.error (PyExc.providerError "u"),
         Except.ok ⟨[⟨⟨"not json at all", none⟩⟩]⟩⟩ "t" false).2.loggedRaw =
          some "not json at all") ∧
    (generate_feedback
        ⟨Except.error (PyExc.providerError "u"),
         fun _ => Except.error (PyExc.providerError "u"),
         Except.ok ⟨[⟨⟨"{}", some (Json.obj [])⟩⟩]⟩⟩ "t" false).1 =
      Except.ok (Json.arr []) :=
  ⟨C6_amended_parse_failure_degrades.1 _ "t" false _ _ _ rfl rfl rfl,
   C6_amended_parse_failure_degrades.2 _ "t" false _ _ _ [] rfl rfl rfl rfl⟩

/-- C1 counterexample: a transport failure raised by the final model call
propagates out of `generate_feedback` — here even with search enhancement
on and the translation and search collaborators healthy. -/
theorem C1_counterexample :
    (generate_feedback
      ⟨Except.ok ⟨[]⟩,
       fun _ => Except.ok ⟨some [⟨some "t", some "u", some "2024", some "body"⟩], some "ans"⟩,
       Except.error (PyExc.providerError "connection reset")⟩
      "some topic" true).1 = Except.error (PyExc.providerError "connection reset") := rfl

/-- C1 amended: failures in the translation and search stages are absorbed
inside the pipeline and a JSON-decode failure of the final response body
degrades to the empty list — any run whose final model call returns a
response with a nonempty `choices` whose body decodes to nothing or to a
JSON object produces a value — but an exception raised by the final model
call itself propagates to the caller. -/
theorem C1_amended_error_containment :
    (∀ (tc : Except PyExc ChatResponse)
        (prov : TavilyRequest → Except PyExc TavilyResponse)
        (query : String) (enh : Bool)
        (resp : ChatResponse) (c : Choice) (rest : List Choice),
        resp.choices = c :: rest →
        (c.message.decoded = none ∨
          ∃ fields, c.message.decoded = some (Json.obj fields)) →
        ∃ v, (generate_feedback ⟨tc, prov, Except.ok resp⟩ query enh).1 = Except.ok v) ∧
    (∀ (tc : Except PyExc ChatResponse)
        (prov : TavilyRequest → Except PyExc TavilyResponse)
        (e : PyExc) (query : String) (enh : Bool),
        (generate_feedback ⟨tc, prov, Except.error e⟩ query enh).1 = Except.error e) := by
  constructor
  · intro tc prov query enh resp c rest hch hdec
    rcases hdec with hdec | ⟨fields, hdec⟩
    · exact ⟨Json.arr [], by simp [generate_feedback, hch, hdec]⟩
    · exact ⟨(fields.lookup "questions").getD (Json.arr []),
        by simp [generate_feedback, hch, hdec]⟩
  · intro tc prov e query enh
    simp [generate_feedback]

/-- Witness for C1 amended: with the translation client and the search
provider both down and a Chinese query, the run still returns a value; a
failing final call propagates its exception. -/
theorem C1_amended_error_containment_witness :
    (∃ v, (generate_feedback
        ⟨Except.error (PyExc.providerError "translate down"),
         fun _ => Except.error (PyExc.providerError "search down"),
         Except.ok ⟨[⟨⟨"oops", none⟩⟩]⟩⟩ "研究主题" true).1 = Except.ok v) ∧
    (generate_feedback
        ⟨Except.ok ⟨[]⟩, fun _ => Except.ok ⟨none, none⟩,
         Except.error (PyExc.providerError "gen down")⟩ "topic" false).1 =
      Except.error (PyExc.providerError "gen down") :=
  ⟨C1_amended_error_containment.1 _ _ "研究主题" true _ _ _ rfl (Or.inl rfl),
   C1_amended_error_containment.2 _ _ (PyExc.providerError "gen down") "topic" false⟩
